import Mathlib

/-!
Nullable `Byte` and `Float64` (package `null`)

A shallow embedding of `byte.go` and `float64.go`.  A method with a pointer
receiver becomes a function from the receiver's fields before the call to the
fields after it together with the way the call ended (`Outcome`): a nil error,
a non-nil error, or a run-time panic.  A Go `string` and a Go `[]byte` are both
lists of bytes.
-/

set_option linter.dupNamespace false

namespace null

/-! ## Values -/

/-- Go's `byte`, an unsigned 8-bit integer. -/
abbrev byte := Fin 256

/-- Go's `float64`, held as its 64-bit IEEE-754 pattern; the pattern `0` is the
constant `0` of the source. No arithmetic is done on these values here. -/
abbrev float64 := Fin 18446744073709551616

/-- The values of Go's `error` interface that the two files can return. The
offset and type fields of the `encoding/json` errors are left out. -/
inductive error
  /-- Go's `errors.New(text)`. -/
  | New (text : String)
  /-- Go's `*json.SyntaxError`: the offending byte (none at the end of the input)
  and the scanner's context. -/
  | SyntaxError (c : Option byte) (context : String)
  /-- Go's `*json.UnmarshalTypeError` with the kind of JSON value in its `Value`
  field (for a number, without the text of the literal). -/
  | UnmarshalTypeError (value : String)
  /-- Go's `*strconv.NumError` for the function, the text and the cause. -/
  | NumError (func : String) (num : List byte) (cause : String)
  /-- An error built by `fmt.Errorf` in another package. -/
  | Errorf (text : String)
deriving DecidableEq, Repr

/-- A run-time panic of the Go program. -/
inductive Panic
  /-- The run-time error `index out of range [index] with length len`. -/
  | indexOutOfRange (index len : Nat)
  /-- A failed type assertion `value.(string)`: the dynamic type found. -/
  | interfaceConversion (dynamic : String)
  /-- The `phasePanicMsg` of `encoding/json`, `JSON decoder out of sync`. -/
  | phase
deriving DecidableEq, Repr

/-- How a call of a method that returns `error` ends. -/
inductive Outcome
  /-- The call returned a nil error. -/
  | nil
  /-- The call returned a non-nil error. -/
  | err (e : error)
  /-- The call did not return: it panicked. -/
  | panicked (p : Panic)
deriving DecidableEq, Repr

/-- The argument of `Scan(value interface{})`: the untyped nil or one of the
dynamic types `database/sql/driver` lets a driver hand over (`driver.Value`). -/
inductive Value
  | nil
  | int64 (v : Int)
  | float64 (v : float64)
  | bool (v : Bool)
  | bytes (v : List byte)
  | string (v : List byte)
  | time (unixNano : Int)
deriving DecidableEq, Repr

/-- The name Go prints for the dynamic type of a non-nil `Value`. -/
def Value.typeName : Value → String
  | .nil => "nil"
  | .int64 _ => "int64"
  | .float64 _ => "float64"
  | .bool _ => "bool"
  | .bytes _ => "[]uint8"
  | .string _ => "string"
  | .time _ => "time.Time"

/-- Modelled from the spec: the package variable `NullBytes`, declared in a file
of the package that is not among the sources; the spec gives it as the 4-byte
ASCII sequence `n`, `u`, `l`, `l`. -/
def NullBytes : List byte := [0x6E, 0x75, 0x6C, 0x6C]

/-- Functions of other packages called by `float64.go`, taken as parameters:
what is proved below depends only on whether they fail and on the flags the
methods set around them, for whatever value they compute. -/
structure Lib where
  /-- Go's `strconv.ParseFloat(s, 64)`: the value and the error returned for `s`. -/
  ParseFloat : List byte → float64 × Option error
  /-- Go's `convert.ConvertAssign(dest, src)` with `dest` a `*float64`: from the old
  `*dest` and `src`, the new `*dest` and the error returned. -/
  ConvertAssign : float64 → Value → float64 × Option error
  /-- Go's `strconv.FormatFloat(v, 'f', -1, 64)` as bytes. -/
  FormatFloat : float64 → List byte
  /-- What `json.Unmarshal` leaves in a `*float64` destination when it returns
  an error on an input whose value starts as a number: from the old value and
  the input.  A decoder that checks the whole input before it stores anything
  leaves the old value; a decoder that stores a number as soon as it has read
  it leaves what it stored, such as an infinity for a literal out of range. -/
  jsonErrorDest : float64 → List byte → float64

/-! ## The two types -/

/-- The declaration `type Byte struct`. -/
structure Byte where
  Byte : byte
  Valid : Bool
  Set : Bool
deriving DecidableEq, Repr

/-- The declaration `type Float64 struct`. -/
structure Float64 where
  Float64 : float64
  Valid : Bool
  Set : Bool
deriving DecidableEq, Repr

/-- The zero value `Byte{}` of a variable declared and never touched. -/
def Byte.zero : null.Byte := { Byte := 0, Valid := false, Set := false }

/-- The zero value `Float64{}`. -/
def Float64.zero : null.Float64 := { Float64 := 0, Valid := false, Set := false }

/-! ## byte.go: constructors, accessors, text, storage -/

def NewByte (value : byte) (valid : Bool) : Byte :=
  { Byte := value, Valid := valid, Set := true }

def ByteFrom (value : byte) : Byte :=
  NewByte value true

/-- A `*byte` is `none` for the nil pointer and `some v` for a pointer to `v`. -/
def ByteFromPtr (ptr : Option byte) : Byte :=
  match ptr with
  | none => NewByte 0 false
  | some v => NewByte v true

def Byte.IsValid (b : null.Byte) : Bool :=
  b.Set && b.Valid

def Byte.IsSet (b : null.Byte) : Bool :=
  b.Set

def Byte.UnmarshalText (b : null.Byte) (text : List byte) : null.Byte × Outcome :=
  let b := { b with Set := true }
  if text.length = 0 then
    ({ b with Valid := false }, Outcome.nil)
  else if text.length > 1 then
    (b, Outcome.err (error.New "text: cannot convert to byte, text len is greater than one"))
  else
    let b := { b with Valid := true }
    match text[0]? with
    | some c => ({ b with Byte := c }, Outcome.nil)
    | none => (b, Outcome.panicked (Panic.indexOutOfRange 0 text.length))

def Byte.MarshalJSON (b : null.Byte) : List byte × Option error :=
  if !b.IsValid then
    (NullBytes, none)
  else
    ([0x22, b.Byte, 0x22], none)

def Byte.MarshalText (b : null.Byte) : List byte × Option error :=
  if !b.IsValid then
    ([], none)
  else
    ([b.Byte], none)

def Byte.SetValue (b : null.Byte) (value : byte) : null.Byte :=
  let b := { b with Byte := value }
  let b := { b with Valid := true }
  { b with Set := true }

def Byte.Ptr (b : null.Byte) : Option byte :=
  if !b.IsValid then
    none
  else
    some b.Byte

def Byte.IsZero (b : null.Byte) : Bool :=
  !b.Valid

def Byte.Scan (b : null.Byte) (value : Value) : null.Byte × Outcome :=
  match value with
  | Value.nil => ({ Byte := 0, Valid := false, Set := false }, Outcome.nil)
  | Value.string val =>
    if val.length = 0 then
      ({ Byte := 0, Valid := false, Set := false }, Outcome.nil)
    else
      match val[0]? with
      | some c => ({ Byte := c, Valid := true, Set := true }, Outcome.nil)
      | none => (b, Outcome.panicked (Panic.indexOutOfRange 0 val.length))
  | other => (b, Outcome.panicked (Panic.interfaceConversion other.typeName))

def Byte.Value (b : null.Byte) : Value × Option error :=
  if !b.IsValid then
    (Value.nil, none)
  else
    (Value.bytes [b.Byte], none)

/-! ## float64.go: constructors, accessors, text, storage -/

def NewFloat64 (value : float64) (valid : Bool) : Float64 :=
  { Float64 := value, Valid := valid, Set := true }

def Float64From (value : float64) : Float64 :=
  NewFloat64 value true

def Float64FromPtr (ptr : Option float64) : Float64 :=
  match ptr with
  | none => NewFloat64 0 false
  | some v => NewFloat64 v true

def Float64.IsValid (f : null.Float64) : Bool :=
  f.Set && f.Valid

def Float64.IsSet (f : null.Float64) : Bool :=
  f.Set

def Float64.UnmarshalText (lib : Lib) (f : null.Float64) (text : List byte) : null.Float64 × Outcome :=
  let f := { f with Set := true }
  if text.length = 0 then
    ({ f with Valid := false }, Outcome.nil)
  else
    let r := lib.ParseFloat text
    let f := { f with Float64 := r.1 }
    match r.2 with
    | none => ({ f with Valid := true }, Outcome.nil)
    | some e => ({ f with Valid := false }, Outcome.err e)

def Float64.SetValue (f : null.Float64) (value : float64) : null.Float64 :=
  let f := { f with Float64 := value }
  let f := { f with Valid := true }
  { f with Set := true }

def Float64.Ptr (f : null.Float64) : Option float64 :=
  if !f.IsValid then
    none
  else
    some f.Float64

def Float64.IsZero (f : null.Float64) : Bool :=
  !f.Valid

def Float64.Scan (lib : Lib) (f : null.Float64) (value : Value) : null.Float64 × Outcome :=
  match value with
  | Value.nil => ({ Float64 := 0, Valid := false, Set := false }, Outcome.nil)
  | src =>
    let f := { f with Valid := true, Set := true }
    let r := lib.ConvertAssign f.Float64 src
    match r.2 with
    | none => ({ f with Float64 := r.1 }, Outcome.nil)
    | some e => ({ f with Float64 := r.1 }, Outcome.err e)

def Float64.Value (f : null.Float64) : Value × Option error :=
  if !f.IsValid then
    (Value.nil, none)
  else
    (Value.float64 f.Float64, none)

/-! ## encoding/json: the scanner (`scanner.go`)

`json.Unmarshal` first runs `checkValid` over the whole input.  The scanner is
the state machine of the Go standard library: one `step` function per state,
a stack of open objects and arrays, and the first error met.  The opcodes the
step functions return are left out, since `checkValid` reads only whether a
step reported an error, which `err` records. -/

/-- The names of the scanner's `step` functions (`stateBeginValue`, ...). -/
inductive Step
  | BeginValueOrEmpty | BeginValue | BeginStringOrEmpty | BeginString
  | EndValue | EndTop
  | InString | InStringEsc | InStringEscU | InStringEscU1 | InStringEscU12 | InStringEscU123
  | Neg | One | Zero | Dot | Dot0 | E | ESign | E0
  | T | Tr | Tru | F | Fa | Fal | Fals | N | Nu | Nul
  | Error
deriving DecidableEq, Repr

/-- The entries of the scanner's `parseState` stack. -/
inductive ParseState
  | parseObjectKey | parseObjectValue | parseArrayValue
deriving DecidableEq, Repr

/-- The fields of `scanner` that `checkValid` uses; the top of `parseState` is
the head of the list. -/
structure scanner where
  step : Step
  endTop : Bool
  parseState : List ParseState
  err : Option error
deriving DecidableEq, Repr

def maxNestingDepth : Nat := 10000

def isSpace (c : byte) : Bool :=
  c = 0x20 || c = 0x09 || c = 0x0D || c = 0x0A

def isDigit (c : byte) : Bool :=
  decide (0x30 ≤ c) && decide (c ≤ 0x39)

def isHex (c : byte) : Bool :=
  isDigit c || (decide (0x61 ≤ c) && decide (c ≤ 0x66)) || (decide (0x41 ≤ c) && decide (c ≤ 0x46))

def scanner.reset : scanner :=
  { step := Step.BeginValue, endTop := false, parseState := [], err := none }

/-- Go's `s.error(c, context)`: record the error and stop at `stateError`. -/
def scanner.error (s : scanner) (c : byte) (context : String) : scanner :=
  { s with step := Step.Error, err := some (error.SyntaxError (some c) context) }

def scanner.pushParseState (s : scanner) (c : byte) (newParseState : ParseState) : scanner :=
  let s := { s with parseState := newParseState :: s.parseState }
  if s.parseState.length ≤ maxNestingDepth then s
  else s.error c "exceeded max depth"

def scanner.popParseState (s : scanner) : scanner :=
  let s := { s with parseState := s.parseState.tail }
  if s.parseState.length = 0 then { s with step := Step.EndTop, endTop := true }
  else { s with step := Step.EndValue }

def stateEndTop (s : scanner) (c : byte) : scanner :=
  if !isSpace c then s.error c "after top-level value" else s

def stateEndValue (s : scanner) (c : byte) : scanner :=
  match s.parseState with
  | [] => stateEndTop { s with step := Step.EndTop, endTop := true } c
  | ps :: rest =>
    if isSpace c then { s with step := Step.EndValue }
    else
      match ps with
      | ParseState.parseObjectKey =>
        if c = 0x3A then -- ':'
          { s with parseState := ParseState.parseObjectValue :: rest, step := Step.BeginValue }
        else s.error c "after object key"
      | ParseState.parseObjectValue =>
        if c = 0x2C then -- ','
          { s with parseState := ParseState.parseObjectKey :: rest, step := Step.BeginString }
        else if c = 0x7D then -- '}'
          s.popParseState
        else s.error c "after object key:value pair"
      | ParseState.parseArrayValue =>
        if c = 0x2C then { s with step := Step.BeginValue }
        else if c = 0x5D then -- ']'
          s.popParseState
        else s.error c "after array element"

def stateBeginValue (s : scanner) (c : byte) : scanner :=
  if isSpace c then s
  else if c = 0x7B then -- '{'
    ({ s with step := Step.BeginStringOrEmpty }).pushParseState c ParseState.parseObjectKey
  else if c = 0x5B then -- '['
    ({ s with step := Step.BeginValueOrEmpty }).pushParseState c ParseState.parseArrayValue
  else if c = 0x22 then { s with step := Step.InString }
  else if c = 0x2D then { s with step := Step.Neg }
  else if c = 0x30 then { s with step := Step.Zero }
  else if c = 0x74 then { s with step := Step.T }
  else if c = 0x66 then { s with step := Step.F }
  else if c = 0x6E then { s with step := Step.N }
  else if decide (0x31 ≤ c) && decide (c ≤ 0x39) then { s with step := Step.One }
  else s.error c "looking for beginning of value"

def stateBeginValueOrEmpty (s : scanner) (c : byte) : scanner :=
  if isSpace c then s
  else if c = 0x5D then stateEndValue s c
  else stateBeginValue s c

def stateBeginString (s : scanner) (c : byte) : scanner :=
  if isSpace c then s
  else if c = 0x22 then { s with step := Step.InString }
  else s.error c "looking for beginning of object key string"

def stateBeginStringOrEmpty (s : scanner) (c : byte) : scanner :=
  if isSpace c then s
  else if c = 0x7D then
    stateEndValue { s with parseState := ParseState.parseObjectValue :: s.parseState.tail } c
  else stateBeginString s c

def stateInString (s : scanner) (c : byte) : scanner :=
  if c = 0x22 then { s with step := Step.EndValue }
  else if c = 0x5C then { s with step := Step.InStringEsc }
  else if c < 0x20 then s.error c "in string literal"
  else s

def stateInStringEsc (s : scanner) (c : byte) : scanner :=
  if c = 0x62 || c = 0x66 || c = 0x6E || c = 0x72 || c = 0x74 || c = 0x5C || c = 0x2F
      || c = 0x22 then
    { s with step := Step.InString }
  else if c = 0x75 then { s with step := Step.InStringEscU }
  else s.error c "in string escape code"

/-- The four states `stateInStringEscU` to `stateInStringEscU123`, which differ
only in the state that follows. -/
def stateInStringEscHex (next : Step) (s : scanner) (c : byte) : scanner :=
  if isHex c then { s with step := next }
  else s.error c "in \\u hexadecimal character escape"

def state0 (s : scanner) (c : byte) : scanner :=
  if c = 0x2E then { s with step := Step.Dot }
  else if c = 0x65 || c = 0x45 then { s with step := Step.E }
  else stateEndValue s c

def state1 (s : scanner) (c : byte) : scanner :=
  if isDigit c then { s with step := Step.One }
  else state0 s c

def stateNeg (s : scanner) (c : byte) : scanner :=
  if c = 0x30 then { s with step := Step.Zero }
  else if decide (0x31 ≤ c) && decide (c ≤ 0x39) then { s with step := Step.One }
  else s.error c "in numeric literal"

def stateDot (s : scanner) (c : byte) : scanner :=
  if isDigit c then { s with step := Step.Dot0 }
  else s.error c "after decimal point in numeric literal"

def stateDot0 (s : scanner) (c : byte) : scanner :=
  if isDigit c then s
  else if c = 0x65 || c = 0x45 then { s with step := Step.E }
  else stateEndValue s c

def stateESign (s : scanner) (c : byte) : scanner :=
  if isDigit c then { s with step := Step.E0 }
  else s.error c "in exponent of numeric literal"

def stateE (s : scanner) (c : byte) : scanner :=
  if c = 0x2B || c = 0x2D then { s with step := Step.ESign }
  else stateESign s c

def stateE0 (s : scanner) (c : byte) : scanner :=
  if isDigit c then s
  else stateEndValue s c

/-- The states inside `true`, `false` and `null`: the byte `want` leads to
`next`, any other byte is an error. -/
def stateLiteral (want : byte) (next : Step) (context : String) (s : scanner) (c : byte) :
    scanner :=
  if c = want then { s with step := next }
  else s.error c context

/-- Go's `s.step(s, c)`: the call through the function value stored in `s.step`. -/
def scanner.next (s : scanner) (c : byte) : scanner :=
  match s.step with
  | Step.BeginValueOrEmpty => stateBeginValueOrEmpty s c
  | Step.BeginValue => stateBeginValue s c
  | Step.BeginStringOrEmpty => stateBeginStringOrEmpty s c
  | Step.BeginString => stateBeginString s c
  | Step.EndValue => stateEndValue s c
  | Step.EndTop => stateEndTop s c
  | Step.InString => stateInString s c
  | Step.InStringEsc => stateInStringEsc s c
  | Step.InStringEscU => stateInStringEscHex Step.InStringEscU1 s c
  | Step.InStringEscU1 => stateInStringEscHex Step.InStringEscU12 s c
  | Step.InStringEscU12 => stateInStringEscHex Step.InStringEscU123 s c
  | Step.InStringEscU123 => stateInStringEscHex Step.InString s c
  | Step.Neg => stateNeg s c
  | Step.One => state1 s c
  | Step.Zero => state0 s c
  | Step.Dot => stateDot s c
  | Step.Dot0 => stateDot0 s c
  | Step.E => stateE s c
  | Step.ESign => stateESign s c
  | Step.E0 => stateE0 s c
  | Step.T => stateLiteral 0x72 Step.Tr "in literal true (expecting r)" s c
  | Step.Tr => stateLiteral 0x75 Step.Tru "in literal true (expecting u)" s c
  | Step.Tru => stateLiteral 0x65 Step.EndValue "in literal true (expecting e)" s c
  | Step.F => stateLiteral 0x61 Step.Fa "in literal false (expecting a)" s c
  | Step.Fa => stateLiteral 0x6C Step.Fal "in literal false (expecting l)" s c
  | Step.Fal => stateLiteral 0x73 Step.Fals "in literal false (expecting s)" s c
  | Step.Fals => stateLiteral 0x65 Step.EndValue "in literal false (expecting e)" s c
  | Step.N => stateLiteral 0x75 Step.Nu "in literal null (expecting u)" s c
  | Step.Nu => stateLiteral 0x6C Step.Nul "in literal null (expecting l)" s c
  | Step.Nul => stateLiteral 0x6C Step.EndValue "in literal null (expecting l)" s c
  | Step.Error => s

def scanner.eof (s : scanner) : Option null.error :=
  if s.err.isSome then s.err
  else if s.endTop then none
  else
    let s := s.next 0x20
    if s.endTop then none
    else if s.err.isSome then s.err
    else some (null.error.SyntaxError none "unexpected end of JSON input")

/-- Go's `checkValid(data, scan)`: nil (`none`) exactly for one well-formed JSON value. -/
def checkValid (data : List byte) : Option error :=
  (data.foldl scanner.next scanner.reset).eof

/-! ## unicode/utf8 and unicode/utf16

Runes are natural numbers; `none` stands for the rune `-1`. -/

/-- The conversion `byte(x)`. -/
def toByte (n : Nat) : byte := ⟨n % 256, Nat.mod_lt n (by decide)⟩

/-- Go's `utf8.RuneError` and `unicode.ReplacementChar`, U+FFFD. -/
def RuneError : Nat := 0xFFFD

/-- The table `first` of `utf8.go` with `acceptRanges` looked up: for a lead
byte of a multi-byte sequence, its size and the range of the second byte;
`none` for the bytes the table marks `xx`. -/
def first (p0 : byte) : Option (Nat × byte × byte) :=
  if 0xC2 ≤ p0 ∧ p0 ≤ 0xDF then some (2, 0x80, 0xBF)
  else if p0 = 0xE0 then some (3, 0xA0, 0xBF)
  else if 0xE1 ≤ p0 ∧ p0 ≤ 0xEC then some (3, 0x80, 0xBF)
  else if p0 = 0xED then some (3, 0x80, 0x9F)
  else if 0xEE ≤ p0 ∧ p0 ≤ 0xEF then some (3, 0x80, 0xBF)
  else if p0 = 0xF0 then some (4, 0x90, 0xBF)
  else if 0xF1 ≤ p0 ∧ p0 ≤ 0xF3 then some (4, 0x80, 0xBF)
  else if p0 = 0xF4 then some (4, 0x80, 0x8F)
  else none

/-- A continuation byte, `locb <= b && b <= hicb`. -/
def isCont (b : byte) : Bool :=
  decide (0x80 ≤ b) && decide (b ≤ 0xBF)

/-- Go's `utf8.DecodeRune(p)`: the rune and its width in bytes. -/
def DecodeRune (p : List byte) : Nat × Nat :=
  match p with
  | [] => (RuneError, 0)
  | p0 :: rest =>
    if p0 < 0x80 then (p0.val, 1)
    else
      match first p0 with
      | none => (RuneError, 1)
      | some (sz, lo, hi) =>
        if p.length < sz then (RuneError, 1)
        else
          match rest with
          | [] => (RuneError, 1)
          | b1 :: rest1 =>
            if b1 < lo ∨ hi < b1 then (RuneError, 1)
            else if sz ≤ 2 then ((p0.val % 32) * 64 + b1.val % 64, 2)
            else
              match rest1 with
              | [] => (RuneError, 1)
              | b2 :: rest2 =>
                if !isCont b2 then (RuneError, 1)
                else if sz ≤ 3 then
                  ((p0.val % 16) * 4096 + (b1.val % 64) * 64 + b2.val % 64, 3)
                else
                  match rest2 with
                  | [] => (RuneError, 1)
                  | b3 :: _ =>
                    if !isCont b3 then (RuneError, 1)
                    else
                      ((p0.val % 8) * 262144 + (b1.val % 64) * 4096 + (b2.val % 64) * 64
                        + b3.val % 64, 4)

/-- Go's `utf8.EncodeRune(p, r)`: the bytes written. -/
def EncodeRune (r : Nat) : List byte :=
  if r ≤ 0x7F then [toByte r]
  else if r ≤ 0x7FF then [toByte (0xC0 + r / 64), toByte (0x80 + r % 64)]
  else
    let r := if r > 0x10FFFF ∨ (0xD800 ≤ r ∧ r ≤ 0xDFFF) then RuneError else r
    if r ≤ 0xFFFF then
      [toByte (0xE0 + r / 4096), toByte (0x80 + r / 64 % 64), toByte (0x80 + r % 64)]
    else
      [toByte (0xF0 + r / 262144), toByte (0x80 + r / 4096 % 64), toByte (0x80 + r / 64 % 64),
        toByte (0x80 + r % 64)]

/-- Go's `utf16.IsSurrogate(r)`. -/
def IsSurrogate (r : Nat) : Bool :=
  decide (0xD800 ≤ r) && decide (r < 0xE000)

/-- Go's `utf16.DecodeRune(r1, r2)`, named apart from `utf8.DecodeRune`. -/
def utf16DecodeRune (r1 : Nat) (r2 : Option Nat) : Nat :=
  match r2 with
  | none => RuneError
  | some r2 =>
    if 0xD800 ≤ r1 ∧ r1 < 0xDC00 ∧ 0xDC00 ≤ r2 ∧ r2 < 0xE000 then
      (r1 - 0xD800) * 1024 + (r2 - 0xDC00) + 0x10000
    else RuneError

/-! ## encoding/json: decoding one value (`decode.go`) -/

/-- The value of a hexadecimal digit, `none` for any other byte. -/
def hexVal (c : byte) : Option Nat :=
  if 0x30 ≤ c ∧ c ≤ 0x39 then some (c.val - 0x30)
  else if 0x61 ≤ c ∧ c ≤ 0x66 then some (c.val - 0x61 + 10)
  else if 0x41 ≤ c ∧ c ≤ 0x46 then some (c.val - 0x41 + 10)
  else none

/-- Go's `getu4(s)`: the rune of a leading backslash-u escape of four hexadecimal
digits, or `none` (Go: `-1`). -/
def getu4 (s : List byte) : Option Nat :=
  match s with
  | b :: u :: h1 :: h2 :: h3 :: h4 :: _ =>
    if b ≠ 0x5C ∨ u ≠ 0x75 then none
    else
      match hexVal h1, hexVal h2, hexVal h3, hexVal h4 with
      | some d1, some d2, some d3, some d4 => some (((d1 * 16 + d2) * 16 + d3) * 16 + d4)
      | _, _, _, _ => none
  | _ => none

/-- The loop of `unquoteBytes` over the bytes between the quotes; `none` is
its `ok == false`.  Every round consumes at least one byte, so a `fuel` of the
length of the input is enough. -/
def unquoteLoop : Nat → List byte → Option (List byte)
  | _, [] => some []
  | 0, _ :: _ => none
  | fuel + 1, c :: rest =>
    if c = 0x5C then
      match rest with
      | [] => none
      | e :: rest2 =>
        if e = 0x22 ∨ e = 0x5C ∨ e = 0x2F ∨ e = 0x27 then
          (unquoteLoop fuel rest2).map (fun t => e :: t)
        else if e = 0x62 then (unquoteLoop fuel rest2).map (fun t => 0x08 :: t)
        else if e = 0x66 then (unquoteLoop fuel rest2).map (fun t => 0x0C :: t)
        else if e = 0x6E then (unquoteLoop fuel rest2).map (fun t => 0x0A :: t)
        else if e = 0x72 then (unquoteLoop fuel rest2).map (fun t => 0x0D :: t)
        else if e = 0x74 then (unquoteLoop fuel rest2).map (fun t => 0x09 :: t)
        else if e = 0x75 then
          match getu4 (c :: rest) with
          | none => none
          | some rr =>
            let after := (c :: rest).drop 6
            if IsSurrogate rr then
              let dec := utf16DecodeRune rr (getu4 after)
              if dec ≠ RuneError then
                (unquoteLoop fuel (after.drop 6)).map (fun t => EncodeRune dec ++ t)
              else (unquoteLoop fuel after).map (fun t => EncodeRune RuneError ++ t)
            else (unquoteLoop fuel after).map (fun t => EncodeRune rr ++ t)
        else none
    else if c = 0x22 ∨ c < 0x20 then none
    else if c < 0x80 then (unquoteLoop fuel rest).map (fun t => c :: t)
    else
      let d := DecodeRune (c :: rest)
      (unquoteLoop fuel ((c :: rest).drop d.2)).map (fun t => EncodeRune d.1 ++ t)

/-- Go's `unquoteBytes(s)` for a quoted literal `s`. -/
def unquoteBytes (s : List byte) : Option (List byte) :=
  if s.length < 2 ∨ s.head? ≠ some 0x22 ∨ s.getLast? ≠ some 0x22 then none
  else
    let inner := (s.drop 1).take (s.length - 2)
    unquoteLoop inner.length inner

/-- The string case of `rescanLiteral`: of the bytes after an opening quote,
those up to and with the closing quote; `esc` says that the byte before was a
backslash, which the loop skips together with the byte after it. -/
def rescanString (esc : Bool) : List byte → List byte
  | [] => []
  | c :: rest =>
    if esc then c :: rescanString false rest
    else if c = 0x5C then c :: rescanString true rest
    else if c = 0x22 then [c]
    else c :: rescanString false rest

/-- The number case of `rescanLiteral`: the bytes a number literal may hold. -/
def isNumberByte (c : byte) : Bool :=
  isDigit c || c = 0x2E || c = 0x65 || c = 0x45 || c = 0x2B || c = 0x2D

/-- Go's `json.Unmarshal(data, &x)` for `var x string`: the value of `x` afterwards
and how the call ended.  The input is checked as a whole first; then the kind
of the one value decides: a string literal is unquoted into `x`, `null` leaves
`x` alone, anything else is an `UnmarshalTypeError`.  A panic stands for the
decoder's `phasePanicMsg`, which valid input does not reach. -/
def jsonUnmarshalString (data : List byte) : List byte × Outcome :=
  match checkValid data with
  | some e => ([], Outcome.err e)
  | none =>
    match data.dropWhile isSpace with
    | [] => ([], Outcome.panicked Panic.phase)
    | c :: rest =>
      if c = 0x7B then ([], Outcome.err (error.UnmarshalTypeError "object"))
      else if c = 0x5B then ([], Outcome.err (error.UnmarshalTypeError "array"))
      else if c = 0x22 then
        match unquoteBytes (c :: rescanString false rest) with
        | some x => (x, Outcome.nil)
        | none => ([], Outcome.panicked Panic.phase)
      else if c = 0x6E then ([], Outcome.nil)
      else if c = 0x74 ∨ c = 0x66 then ([], Outcome.err (error.UnmarshalTypeError "bool"))
      else ([], Outcome.err (error.UnmarshalTypeError "number"))

/-- Whether the first byte after leading white space opens a number literal,
a digit or the minus sign. -/
def startsNumber (data : List byte) : Bool :=
  match data.dropWhile isSpace with
  | [] => false
  | c :: _ => isDigit c || c = 0x2D

/-- The `float64` destination after `json.Unmarshal` returned an error: the old
value unless the value in the input starts as a number, which a decoder may
have stored before it met the error. -/
def errorDest (lib : Lib) (data : List byte) (dest : float64) : float64 :=
  if startsNumber data then lib.jsonErrorDest dest data else dest

/-- Go's `json.Unmarshal(data, &dest)` for a `float64` variable holding `dest`: its
value afterwards and how the call ended.  A number literal goes through
`strconv.ParseFloat`, whose failure is an `UnmarshalTypeError`; `null` leaves
`dest` alone; anything else is an `UnmarshalTypeError`.  On an error the
destination is `errorDest`: the library decides whether a number it has read
is stored before the error is returned. -/
def jsonUnmarshalFloat64 (lib : Lib) (data : List byte) (dest : float64) : float64 × Outcome :=
  match checkValid data with
  | some e => (errorDest lib data dest, Outcome.err e)
  | none =>
    match data.dropWhile isSpace with
    | [] => (dest, Outcome.panicked Panic.phase)
    | c :: rest =>
      if c = 0x7B then
        (errorDest lib data dest, Outcome.err (error.UnmarshalTypeError "object"))
      else if c = 0x5B then
        (errorDest lib data dest, Outcome.err (error.UnmarshalTypeError "array"))
      else if c = 0x22 then
        (errorDest lib data dest, Outcome.err (error.UnmarshalTypeError "string"))
      else if c = 0x6E then (dest, Outcome.nil)
      else if c = 0x74 ∨ c = 0x66 then
        (errorDest lib data dest, Outcome.err (error.UnmarshalTypeError "bool"))
      else
        let r := lib.ParseFloat (c :: rest.takeWhile isNumberByte)
        match r.2 with
        | none => (r.1, Outcome.nil)
        | some _ => (errorDest lib data dest, Outcome.err (error.UnmarshalTypeError "number"))

/-! ## byte.go and float64.go: JSON -/

def Byte.UnmarshalJSON (b : null.Byte) (data : List byte) : null.Byte × Outcome :=
  let b := { b with Set := true }
  if data.length = 0 ∨ data = NullBytes then
    let b := { b with Valid := false }
    ({ b with Byte := 0 }, Outcome.nil)
  else
    let r := jsonUnmarshalString data
    match r.2 with
    | Outcome.err e => (b, Outcome.err e)
    | Outcome.panicked p => (b, Outcome.panicked p)
    | Outcome.nil =>
      let x := r.1
      if x.length > 1 then
        (b, Outcome.err (error.New "json: cannot convert to byte, text len is greater than one"))
      else
        match x[0]? with
        | none => (b, Outcome.panicked (Panic.indexOutOfRange 0 x.length))
        | some c =>
          let b := { b with Byte := c }
          ({ b with Valid := true }, Outcome.nil)

def Float64.UnmarshalJSON (lib : Lib) (f : null.Float64) (data : List byte) :
    null.Float64 × Outcome :=
  let f := { f with Set := true }
  if data = NullBytes then
    let f := { f with Float64 := 0 }
    ({ f with Valid := false }, Outcome.nil)
  else
    let r := jsonUnmarshalFloat64 lib data f.Float64
    let f := { f with Float64 := r.1 }
    match r.2 with
    | Outcome.err e => (f, Outcome.err e)
    | Outcome.panicked p => (f, Outcome.panicked p)
    | Outcome.nil => ({ f with Valid := true }, Outcome.nil)

def Float64.MarshalJSON (lib : Lib) (f : null.Float64) : List byte × Option error :=
  if !f.IsValid then
    (NullBytes, none)
  else
    (lib.FormatFloat f.Float64, none)

def Float64.MarshalText (lib : Lib) (f : null.Float64) : List byte × Option error :=
  if !f.IsValid then
    ([], none)
  else
    (lib.FormatFloat f.Float64, none)

/-! ## Sequences of calls -/

/-- The ways a `Byte` starts out: the zero value or a constructor. -/
inductive ByteStart
  | zero
  | NewByte (value : byte) (valid : Bool)
  | ByteFrom (value : byte)
  | ByteFromPtr (ptr : Option byte)
deriving DecidableEq, Repr

def ByteStart.make : ByteStart → Byte
  | ByteStart.zero => Byte.zero
  | ByteStart.NewByte value valid => null.NewByte value valid
  | ByteStart.ByteFrom value => null.ByteFrom value
  | ByteStart.ByteFromPtr ptr => null.ByteFromPtr ptr

/-- One call of a method of `*Byte` that writes the receiver. -/
inductive ByteCall
  | SetValue (value : byte)
  | UnmarshalJSON (data : List byte)
  | UnmarshalText (text : List byte)
  | Scan (value : Value)
deriving DecidableEq, Repr

/-- The receiver after the call, however the call ended. -/
def ByteCall.apply (c : ByteCall) (b : Byte) : Byte :=
  match c with
  | ByteCall.SetValue value => b.SetValue value
  | ByteCall.UnmarshalJSON data => (b.UnmarshalJSON data).1
  | ByteCall.UnmarshalText text => (b.UnmarshalText text).1
  | ByteCall.Scan value => (b.Scan value).1

/-- The receiver after the calls, made one after the other. -/
def Byte.after (b : null.Byte) (calls : List ByteCall) : null.Byte :=
  calls.foldl (fun b c => c.apply b) b

inductive Float64Start
  | zero
  | NewFloat64 (value : float64) (valid : Bool)
  | Float64From (value : float64)
  | Float64FromPtr (ptr : Option float64)
deriving DecidableEq, Repr

def Float64Start.make : Float64Start → Float64
  | Float64Start.zero => Float64.zero
  | Float64Start.NewFloat64 value valid => null.NewFloat64 value valid
  | Float64Start.Float64From value => null.Float64From value
  | Float64Start.Float64FromPtr ptr => null.Float64FromPtr ptr

inductive Float64Call
  | SetValue (value : float64)
  | UnmarshalJSON (data : List byte)
  | UnmarshalText (text : List byte)
  | Scan (value : Value)
deriving DecidableEq, Repr

def Float64Call.apply (lib : Lib) (c : Float64Call) (f : Float64) : Float64 :=
  match c with
  | Float64Call.SetValue value => f.SetValue value
  | Float64Call.UnmarshalJSON data => (f.UnmarshalJSON lib data).1
  | Float64Call.UnmarshalText text => (f.UnmarshalText lib text).1
  | Float64Call.Scan value => (f.Scan lib value).1

def Float64.after (lib : Lib) (f : null.Float64) (calls : List Float64Call) : null.Float64 :=
  calls.foldl (fun f c => c.apply lib f) f

/-! ## An instance of the library functions

The theorems below hold for every `Lib`.  Where an example needs one, it uses
this instance, which agrees with the Go functions on the inputs of the
examples: text that is no number is a syntax error, and a `float64` handed
over by a driver is stored as it is. -/

/-- The bit pattern of the `float64` value `1`. -/
def float64One : float64 := 0x3FF0000000000000

/-- An example `ParseFloat`: it knows the texts `0` and `1` and refuses any
other text the way `strconv.ParseFloat` refuses text that is no number, with
the value `0` and a syntax error. -/
def exampleParseFloat (s : List byte) : float64 × Option error :=
  if s = [0x30] then (0, none)
  else if s = [0x31] then (float64One, none)
  else (0, some (error.NumError "ParseFloat" s "invalid syntax"))

/-- An example `ConvertAssign` into a `*float64`: a `float64` source is stored,
a text source goes through `exampleParseFloat`, and any other source is
refused. -/
def exampleConvertAssign (dest : float64) (src : Value) : float64 × Option error :=
  match src with
  | Value.float64 v => (v, none)
  | Value.string s =>
    match exampleParseFloat s with
    | (v, none) => (v, none)
    | (_, some _) => (dest, some (error.Errorf "converting driver.Value type string to a float64"))
  | Value.bytes s =>
    match exampleParseFloat s with
    | (v, none) => (v, none)
    | (_, some _) => (dest, some (error.Errorf "converting driver.Value type []uint8 to a float64"))
  | _ => (dest, some (error.Errorf "unsupported Scan"))

def exampleLib : Lib :=
  { ParseFloat := exampleParseFloat
    ConvertAssign := exampleConvertAssign
    FormatFloat := fun v => if v = 0 then [0x30] else if v = float64One then [0x31] else []
    jsonErrorDest := fun dest _ => dest }

/-- The bit pattern of the `float64` value positive infinity. -/
def float64Inf : float64 := 0x7FF0000000000000

/-- The text `1e999`, a number literal of JSON too large for a `float64`. -/
def text1e999 : List byte := [0x31, 0x65, 0x39, 0x39, 0x39]

/-- An instance whose JSON decoder stores a number before it reports that the
number is out of range: `ParseFloat` answers the text `1e999` with the infinity
and a range error, as `strconv.ParseFloat` does, and `json.Unmarshal` leaves
that infinity in the destination. -/
def storingLib : Lib :=
  { ParseFloat := fun s =>
      if s = text1e999 then
        (float64Inf, some (error.NumError "ParseFloat" s "value out of range"))
      else exampleParseFloat s
    ConvertAssign := exampleConvertAssign
    FormatFloat := exampleLib.FormatFloat
    jsonErrorDest := fun dest data => if data = text1e999 then float64Inf else dest }

/-! ## The outcomes of the decoding calls, case by case -/

/-- The four ways `Byte.UnmarshalJSON` ends and the fields it leaves. -/
theorem Byte_UnmarshalJSON_cases (b : Byte) (data : List byte) :
    (b.UnmarshalJSON data = ({ Byte := 0, Valid := false, Set := true }, Outcome.nil))
    ∨ (∃ c, b.UnmarshalJSON data = ({ Byte := c, Valid := true, Set := true }, Outcome.nil))
    ∨ (∃ e, b.UnmarshalJSON data = ({ b with Set := true }, Outcome.err e))
    ∨ (∃ p, b.UnmarshalJSON data = ({ b with Set := true }, Outcome.panicked p)) := by
  unfold Byte.UnmarshalJSON
  simp only
  split
  · exact Or.inl rfl
  · split
    · exact Or.inr (Or.inr (Or.inl ⟨_, rfl⟩))
    · exact Or.inr (Or.inr (Or.inr ⟨_, rfl⟩))
    · split
      · exact Or.inr (Or.inr (Or.inl ⟨_, rfl⟩))
      · split
        · exact Or.inr (Or.inr (Or.inr ⟨_, rfl⟩))
        · exact Or.inr (Or.inl ⟨_, rfl⟩)

/-- The ways `json.Unmarshal` into a `float64` ends: with a nil error, with an
error and the destination `errorDest`, or in a panic with the destination
untouched. -/
theorem jsonUnmarshalFloat64_cases (lib : Lib) (data : List byte) (dest : float64) :
    (jsonUnmarshalFloat64 lib data dest).2 = Outcome.nil
    ∨ (∃ e, jsonUnmarshalFloat64 lib data dest = (errorDest lib data dest, Outcome.err e))
    ∨ (∃ p, jsonUnmarshalFloat64 lib data dest = (dest, Outcome.panicked p)) := by
  unfold jsonUnmarshalFloat64
  split
  · exact Or.inr (Or.inl ⟨_, rfl⟩)
  · split
    · exact Or.inr (Or.inr ⟨_, rfl⟩)
    · simp only
      split_ifs <;> first | exact Or.inl rfl | exact Or.inr (Or.inl ⟨_, rfl⟩) | skip
      split
      · exact Or.inl rfl
      · exact Or.inr (Or.inl ⟨_, rfl⟩)

/-- The four ways `Float64.UnmarshalJSON` ends and the fields it leaves. -/
theorem Float64_UnmarshalJSON_cases (lib : Lib) (f : Float64) (data : List byte) :
    (f.UnmarshalJSON lib data = ({ Float64 := 0, Valid := false, Set := true }, Outcome.nil))
    ∨ (∃ v, f.UnmarshalJSON lib data = ({ Float64 := v, Valid := true, Set := true }, Outcome.nil))
    ∨ (∃ e, f.UnmarshalJSON lib data
        = ({ Float64 := errorDest lib data f.Float64, Valid := f.Valid, Set := true },
            Outcome.err e))
    ∨ (∃ p, f.UnmarshalJSON lib data = ({ f with Set := true }, Outcome.panicked p)) := by
  unfold Float64.UnmarshalJSON
  simp only
  split
  · exact Or.inl rfl
  · rcases jsonUnmarshalFloat64_cases lib data f.Float64 with h | ⟨e, h⟩ | ⟨p, h⟩
    · split
      · rename_i e he
        rw [h] at he
        cases he
      · rename_i p hp
        rw [h] at hp
        cases hp
      · exact Or.inr (Or.inl ⟨_, rfl⟩)
    · rw [h]
      exact Or.inr (Or.inr (Or.inl ⟨e, rfl⟩))
    · rw [h]
      exact Or.inr (Or.inr (Or.inr ⟨p, rfl⟩))

/-- The ways `Byte.UnmarshalText` ends: empty text, one byte, or more. -/
theorem Byte_UnmarshalText_cases (b : Byte) (text : List byte) :
    (text = [] ∧ b.UnmarshalText text = ({ b with Set := true, Valid := false }, Outcome.nil))
    ∨ (∃ c, text = [c] ∧ b.UnmarshalText text = ({ Byte := c, Valid := true, Set := true }, Outcome.nil))
    ∨ (1 < text.length ∧ b.UnmarshalText text = ({ b with Set := true },
        Outcome.err (error.New "text: cannot convert to byte, text len is greater than one"))) := by
  match text with
  | [] => exact Or.inl ⟨rfl, rfl⟩
  | [c] => exact Or.inr (Or.inl ⟨c, rfl, rfl⟩)
  | c :: d :: rest =>
    refine Or.inr (Or.inr ⟨by simp, ?_⟩)
    simp [Byte.UnmarshalText]

/-- The ways `Float64.UnmarshalText` ends. -/
theorem Float64_UnmarshalText_cases (lib : Lib) (f : Float64) (text : List byte) :
    (text = [] ∧ f.UnmarshalText lib text = ({ f with Set := true, Valid := false }, Outcome.nil))
    ∨ (text ≠ [] ∧ (lib.ParseFloat text).2 = none ∧ f.UnmarshalText lib text
        = ({ Float64 := (lib.ParseFloat text).1, Valid := true, Set := true }, Outcome.nil))
    ∨ (∃ e, text ≠ [] ∧ (lib.ParseFloat text).2 = some e ∧ f.UnmarshalText lib text
        = ({ Float64 := (lib.ParseFloat text).1, Valid := false, Set := true }, Outcome.err e)) := by
  match text with
  | [] => exact Or.inl ⟨rfl, rfl⟩
  | c :: rest =>
    cases h : (lib.ParseFloat (c :: rest)).2 with
    | none =>
      refine Or.inr (Or.inl ⟨by simp, rfl, ?_⟩)
      simp [Float64.UnmarshalText, h]
    | some e =>
      refine Or.inr (Or.inr ⟨e, by simp, rfl, ?_⟩)
      simp [Float64.UnmarshalText, h]

/-- The ways `Byte.Scan` ends. -/
theorem Byte_Scan_cases (b : Byte) (value : Value) :
    (b.Scan value = (Byte.zero, Outcome.nil))
    ∨ (∃ c, b.Scan value = ({ Byte := c, Valid := true, Set := true }, Outcome.nil))
    ∨ (∃ p, b.Scan value = (b, Outcome.panicked p)) := by
  cases value with
  | string val =>
    match val with
    | [] => exact Or.inl rfl
    | c :: rest => exact Or.inr (Or.inl ⟨c, by simp [Byte.Scan]⟩)
  | nil => exact Or.inl rfl
  | _ => exact Or.inr (Or.inr ⟨_, rfl⟩)

/-- The ways `Float64.Scan` ends. -/
theorem Float64_Scan_cases (lib : Lib) (f : Float64) (value : Value) :
    (value = Value.nil ∧ f.Scan lib value = (Float64.zero, Outcome.nil))
    ∨ (value ≠ Value.nil ∧ (lib.ConvertAssign f.Float64 value).2 = none ∧ f.Scan lib value
        = ({ Float64 := (lib.ConvertAssign f.Float64 value).1, Valid := true, Set := true },
            Outcome.nil))
    ∨ (∃ e, value ≠ Value.nil ∧ (lib.ConvertAssign f.Float64 value).2 = some e ∧ f.Scan lib value
        = ({ Float64 := (lib.ConvertAssign f.Float64 value).1, Valid := true, Set := true },
            Outcome.err e)) := by
  by_cases hv : value = Value.nil
  · subst hv
    exact Or.inl ⟨rfl, rfl⟩
  · cases h : (lib.ConvertAssign f.Float64 value).2 with
    | none =>
      refine Or.inr (Or.inl ⟨hv, rfl, ?_⟩)
      cases value <;> first | exact absurd rfl hv | simp [Float64.Scan, h]
    | some e =>
      refine Or.inr (Or.inr ⟨e, hv, rfl, ?_⟩)
      cases value <;> first | exact absurd rfl hv | simp [Float64.Scan, h]

/-! ## Storage scan of the absent marker -/

/-- C1 (counterexample): after `Scan(nil)` on the present Byte `ByteFrom(7)` the
call has returned no error and `IsValid()` is false, but `IsSet()` is false
too, so the three parts of the claim do not hold together. -/
theorem Scan_nil_IsSet_counterexample :
    ¬ ((Byte.Scan (ByteFrom 7) Value.nil).2 = Outcome.nil
        ∧ (Byte.Scan (ByteFrom 7) Value.nil).1.IsSet = true
        ∧ (Byte.Scan (ByteFrom 7) Value.nil).1.IsValid = false) := by
  decide

/-- C1 (amended): for every Byte and every Float64 in any prior state, `Scan`
called with nil returns no error and leaves the zero value of the type: the
value is 0, `Valid` and `Set` are false, so `IsSet()` and `IsValid()` are both
false. -/
theorem Scan_nil_resets_to_zero_value (lib : Lib) (b : Byte) (f : Float64) :
    (b.Scan Value.nil = (Byte.zero, Outcome.nil)
      ∧ (b.Scan Value.nil).1.IsSet = false ∧ (b.Scan Value.nil).1.IsValid = false)
    ∧ (f.Scan lib Value.nil = (Float64.zero, Outcome.nil)
      ∧ (f.Scan lib Value.nil).1.IsSet = false
      ∧ (f.Scan lib Value.nil).1.IsValid = false) := by
  refine ⟨⟨rfl, rfl, rfl⟩, ⟨rfl, rfl, rfl⟩⟩

/-! ## JSON of a single byte -/

set_option maxRecDepth 100000

/-- C2 (failing inputs): `MarshalJSON` writes the byte between two quotes as it
is.  For the quote 0x22 the output is three quotes, which `UnmarshalJSON`
refuses with a syntax error; the backslash 0x5C and the line feed 0x0A are
refused as well, and the byte 0x80 is decoded to the three bytes of U+FFFD and
refused for its length.  In each case the fresh Byte stays invalid.  Over all
256 bytes, decoding the output of `ByteFrom(v).MarshalJSON()` into a fresh Byte
gives back `ByteFrom(v)` with no error exactly for the bytes 0x20 to 0x7F other
than the quote and the backslash. -/
theorem Byte_MarshalJSON_output_refused :
    (ByteFrom 0x22).MarshalJSON = ([0x22, 0x22, 0x22], none)
    ∧ Byte.UnmarshalJSON Byte.zero (ByteFrom 0x22).MarshalJSON.1
        = ({ Byte := 0, Valid := false, Set := true },
            Outcome.err (error.SyntaxError (some 0x22) "after top-level value"))
    ∧ Byte.UnmarshalJSON Byte.zero (ByteFrom 0x5C).MarshalJSON.1
        = ({ Byte := 0, Valid := false, Set := true },
            Outcome.err (error.SyntaxError none "unexpected end of JSON input"))
    ∧ Byte.UnmarshalJSON Byte.zero (ByteFrom 0x0A).MarshalJSON.1
        = ({ Byte := 0, Valid := false, Set := true },
            Outcome.err (error.SyntaxError (some 0x0A) "in string literal"))
    ∧ jsonUnmarshalString (ByteFrom 0x80).MarshalJSON.1 = ([0xEF, 0xBF, 0xBD], Outcome.nil)
    ∧ Byte.UnmarshalJSON Byte.zero (ByteFrom 0x80).MarshalJSON.1
        = ({ Byte := 0, Valid := false, Set := true },
            Outcome.err
              (error.New "json: cannot convert to byte, text len is greater than one"))
    ∧ (∀ v : byte,
        Byte.UnmarshalJSON Byte.zero (ByteFrom v).MarshalJSON.1 = (ByteFrom v, Outcome.nil)
          ↔ (0x20 ≤ v ∧ v ≤ 0x7F ∧ v ≠ 0x22 ∧ v ≠ 0x5C)) := by
  decide

/-- C3 (failing input): the empty JSON string token, two quotes, decodes to the
empty string, passes the guard `len(x) > 1`, and the index `x[0]` panics; the
call returns no error.  Only `Set` has been written by then.  The token of the
two characters `ab` does end in the error, for every prior state. -/
theorem Byte_UnmarshalJSON_empty_string_panics (b : Byte) :
    jsonUnmarshalString [0x22, 0x22] = ([], Outcome.nil)
    ∧ b.UnmarshalJSON [0x22, 0x22]
        = ({ b with Set := true }, Outcome.panicked (Panic.indexOutOfRange 0 0))
    ∧ b.UnmarshalJSON [0x22, 0x61, 0x62, 0x22]
        = ({ b with Set := true },
            Outcome.err
              (error.New "json: cannot convert to byte, text len is greater than one")) := by
  refine ⟨by decide, ?_, ?_⟩
  · have h : jsonUnmarshalString [0x22, 0x22] = ([], Outcome.nil) := by decide
    have hn : ¬ (([0x22, 0x22] : List byte).length = 0
        ∨ ([0x22, 0x22] : List byte) = NullBytes) := by
      decide
    simp only [Byte.UnmarshalJSON, if_neg hn, h]
    rfl
  · have h : jsonUnmarshalString [0x22, 0x61, 0x62, 0x22] = ([0x61, 0x62], Outcome.nil) := by
      decide
    have hn : ¬ (([0x22, 0x61, 0x62, 0x22] : List byte).length = 0
        ∨ ([0x22, 0x61, 0x62, 0x22] : List byte) = NullBytes) := by
      decide
    simp only [Byte.UnmarshalJSON, if_neg hn, h]
    rfl

/-! ## Storage value and storage scan of a byte -/

/-- C4 (failing input): `Value()` of a present Byte is a `[]byte` of length 1,
and `Scan` asserts `value.(string)`, so scanning that value panics with a
failed interface conversion and leaves the target as it was. -/
theorem Byte_Scan_of_Value_panics (target : Byte) (v : byte) :
    (ByteFrom v).Value = (Value.bytes [v], none)
    ∧ target.Scan (ByteFrom v).Value.1
        = (target, Outcome.panicked (Panic.interfaceConversion "[]uint8")) := by
  exact ⟨rfl, rfl⟩

/-! ## JSON decoding of empty input -/

/-- C5 (counterexample): whatever the library functions are, `UnmarshalJSON` of
the zero-length input on `Float64From(1)` does not return a nil error. -/
theorem Float64_UnmarshalJSON_empty_counterexample :
    ¬ ∃ lib : Lib, (Float64.UnmarshalJSON lib (Float64From float64One) []).2 = Outcome.nil := by
  rintro ⟨lib, h⟩
  change Outcome.err (error.SyntaxError none "unexpected end of JSON input") = Outcome.nil at h
  cases h

/-- C5 (amended): for every prior state, `Byte.UnmarshalJSON` of a zero-length
input returns no error and leaves `Set == true`, `Valid == false` and
`Byte == 0`; `Float64.UnmarshalJSON` of a zero-length input returns the JSON
decoder's error for the end of the input and leaves `Set == true` with `Valid`
and `Float64` as they were. -/
theorem UnmarshalJSON_empty_input (lib : Lib) (b : Byte) (f : Float64) :
    b.UnmarshalJSON [] = ({ Byte := 0, Valid := false, Set := true }, Outcome.nil)
    ∧ f.UnmarshalJSON lib []
        = ({ f with Set := true },
            Outcome.err (error.SyntaxError none "unexpected end of JSON input")) := by
  exact ⟨rfl, rfl⟩

/-! ## The invariant `Valid` implies `Set` -/

/-- One call on a Byte keeps `Valid == true` implies `Set == true`. -/
theorem ByteCall_apply_keeps_invariant (c : ByteCall) (b : Byte)
    (h : b.Valid = true → b.Set = true) :
    (c.apply b).Valid = true → (c.apply b).Set = true := by
  cases c with
  | SetValue value => exact fun _ => rfl
  | UnmarshalJSON data =>
    show (b.UnmarshalJSON data).1.Valid = true → (b.UnmarshalJSON data).1.Set = true
    rcases Byte_UnmarshalJSON_cases b data with h1 | ⟨_, h1⟩ | ⟨_, h1⟩ | ⟨_, h1⟩ <;>
      rw [h1] <;> exact fun _ => rfl
  | UnmarshalText text =>
    show (b.UnmarshalText text).1.Valid = true → (b.UnmarshalText text).1.Set = true
    rcases Byte_UnmarshalText_cases b text with ⟨_, h1⟩ | ⟨_, _, h1⟩ | ⟨_, h1⟩ <;>
      rw [h1] <;> exact fun _ => rfl
  | Scan value =>
    show (b.Scan value).1.Valid = true → (b.Scan value).1.Set = true
    rcases Byte_Scan_cases b value with h1 | ⟨_, h1⟩ | ⟨_, h1⟩ <;> rw [h1]
    · exact fun hv => absurd hv (by decide)
    · exact fun _ => rfl
    · exact h

/-- One call on a Float64 keeps `Valid == true` implies `Set == true`. -/
theorem Float64Call_apply_keeps_invariant (lib : Lib) (c : Float64Call) (f : Float64) :
    (c.apply lib f).Valid = true → (c.apply lib f).Set = true := by
  cases c with
  | SetValue value => exact fun _ => rfl
  | UnmarshalJSON data =>
    show (f.UnmarshalJSON lib data).1.Valid = true → (f.UnmarshalJSON lib data).1.Set = true
    rcases Float64_UnmarshalJSON_cases lib f data with h1 | ⟨_, h1⟩ | ⟨_, h1⟩ | ⟨_, h1⟩ <;>
      rw [h1] <;> exact fun _ => rfl
  | UnmarshalText text =>
    show (f.UnmarshalText lib text).1.Valid = true → (f.UnmarshalText lib text).1.Set = true
    rcases Float64_UnmarshalText_cases lib f text with ⟨_, h1⟩ | ⟨_, _, h1⟩ | ⟨_, _, _, h1⟩ <;>
      rw [h1] <;> exact fun _ => rfl
  | Scan value =>
    show (f.Scan lib value).1.Valid = true → (f.Scan lib value).1.Set = true
    rcases Float64_Scan_cases lib f value with ⟨_, h1⟩ | ⟨_, _, h1⟩ | ⟨_, _, _, h1⟩ <;> rw [h1]
    · exact fun hv => absurd hv (by decide)
    · exact fun _ => rfl
    · exact fun _ => rfl

theorem Byte_after_keeps_invariant (calls : List ByteCall) (b : Byte)
    (h : b.Valid = true → b.Set = true) :
    (b.after calls).Valid = true → (b.after calls).Set = true := by
  induction calls generalizing b with
  | nil => exact h
  | cons c cs ih => exact ih (c.apply b) (ByteCall_apply_keeps_invariant c b h)

theorem Float64_after_keeps_invariant (lib : Lib) (calls : List Float64Call) (f : Float64)
    (h : f.Valid = true → f.Set = true) :
    (f.after lib calls).Valid = true → (f.after lib calls).Set = true := by
  induction calls generalizing f with
  | nil => exact h
  | cons c cs ih => exact ih (c.apply lib f) (Float64Call_apply_keeps_invariant lib c f)

/-- C6: every Byte and every Float64 reached from the zero value or from a
constructor by any sequence of `SetValue`, `UnmarshalJSON`, `UnmarshalText` and
`Scan` calls, however each call ended, satisfies `Valid == true` implies
`Set == true`. -/
theorem Valid_implies_Set_after_calls (lib : Lib) :
    (∀ (start : ByteStart) (calls : List ByteCall),
        (start.make.after calls).Valid = true → (start.make.after calls).Set = true)
    ∧ (∀ (start : Float64Start) (calls : List Float64Call),
        (start.make.after lib calls).Valid = true → (start.make.after lib calls).Set = true) := by
  constructor
  · intro start calls
    apply Byte_after_keeps_invariant
    cases start with
    | zero => exact fun hv => absurd hv (by decide)
    | ByteFromPtr ptr => cases ptr <;> exact fun _ => rfl
    | _ => exact fun _ => rfl
  · intro start calls
    apply Float64_after_keeps_invariant
    cases start with
    | zero => exact fun hv => absurd hv (by decide)
    | Float64FromPtr ptr => cases ptr <;> exact fun _ => rfl
    | _ => exact fun _ => rfl

/-- C6 (example): a Byte built invalid by `NewByte(5, false)`, nulled by
`Scan(nil)`, failed on by `UnmarshalText` and `UnmarshalJSON`, and then scanned
from a string is valid and set; so is a Float64 after a scan whose conversion
failed. -/
theorem Valid_implies_Set_after_calls_example :
    ((ByteStart.NewByte 5 false).make.after
        [ByteCall.Scan Value.nil, ByteCall.UnmarshalText [0x61, 0x62],
          ByteCall.UnmarshalJSON [0x22, 0x22], ByteCall.Scan (Value.string [0x61])]).Valid = true
    ∧ ((ByteStart.NewByte 5 false).make.after
        [ByteCall.Scan Value.nil, ByteCall.UnmarshalText [0x61, 0x62],
          ByteCall.UnmarshalJSON [0x22, 0x22], ByteCall.Scan (Value.string [0x61])]).Set = true
    ∧ (Float64Start.zero.make.after exampleLib
        [Float64Call.Scan (Value.string [0x61, 0x62, 0x63])]).Set = true :=
  ⟨by decide,
    (Valid_implies_Set_after_calls exampleLib).1 _ _ (by decide),
    (Valid_implies_Set_after_calls exampleLib).2 _ _ (by decide)⟩

/-! ## A storage scan whose conversion fails -/

/-- C7 (failing input): `Float64.Scan` writes `Valid` and `Set` before it calls
`ConvertAssign`.  For every non-nil driver value whose conversion fails, the
call returns the conversion error and leaves `Valid == true` and `Set == true`,
also on an instance that was not valid before. -/
theorem Float64_Scan_failed_conversion_leaves_Valid (lib : Lib) (f : Float64) (value : Value)
    (e : error) (hv : value ≠ Value.nil) (he : (lib.ConvertAssign f.Float64 value).2 = some e) :
    f.Scan lib value
      = ({ Float64 := (lib.ConvertAssign f.Float64 value).1, Valid := true, Set := true },
          Outcome.err e) := by
  rcases Float64_Scan_cases lib f value with ⟨h0, _⟩ | ⟨_, h1, _⟩ | ⟨e1, _, h1, h2⟩
  · exact absurd h0 hv
  · rw [h1] at he
    cases he
  · rw [h1] at he
    cases he
    exact h2

/-- C7 (example): the zero value `Float64{}` scanned from the text `abc`, which
is no number, ends valid and set with the conversion error returned. -/
theorem Float64_Scan_failed_conversion_example :
    Float64.zero.Valid = false
    ∧ Float64.zero.Scan exampleLib (Value.string [0x61, 0x62, 0x63])
      = ({ Float64 := 0, Valid := true, Set := true },
          Outcome.err (error.Errorf "converting driver.Value type string to a float64")) :=
  ⟨rfl, Float64_Scan_failed_conversion_leaves_Valid exampleLib Float64.zero
    (Value.string [0x61, 0x62, 0x63]) _ (by decide) (by decide)⟩

/-! ## Failed decoding -/

/-- C8 (counterexample): with a decoder that stores a number before it reports
that it is out of range, `UnmarshalJSON` of the text `1e999` on
`Float64From(1)` returns the error and leaves `Set == true` and `Valid` as it
was, but the stored value is the infinity and no longer 1. -/
theorem Float64_UnmarshalJSON_error_value_counterexample :
    ((Float64From float64One).UnmarshalJSON storingLib text1e999).2
        = Outcome.err (error.UnmarshalTypeError "number")
    ∧ ((Float64From float64One).UnmarshalJSON storingLib text1e999).1.Float64 = float64Inf
    ∧ ¬ (((Float64From float64One).UnmarshalJSON storingLib text1e999).1.Set = true
          ∧ ((Float64From float64One).UnmarshalJSON storingLib text1e999).1.Valid
              = (Float64From float64One).Valid
          ∧ ((Float64From float64One).UnmarshalJSON storingLib text1e999).1.Float64
              = (Float64From float64One).Float64) := by
  decide

/-- C8 (amended): on every input on which `UnmarshalJSON` returns an error, for
a Byte and for a Float64 in any state, after the call `Set == true` and `Valid`
is what it was before the call.  The stored value of a Byte is what it was
before the call.  The value field of a Float64 is handed to `json.Unmarshal`
itself: it is what it was before the call when the value in the input does not
start as a number, and otherwise it is what the decoder left in it. -/
theorem UnmarshalJSON_error_keeps_Valid :
    (∀ (b : Byte) (data : List byte) (e : error), (b.UnmarshalJSON data).2 = Outcome.err e →
        (b.UnmarshalJSON data).1.Set = true ∧ (b.UnmarshalJSON data).1.Valid = b.Valid
          ∧ (b.UnmarshalJSON data).1.Byte = b.Byte)
    ∧ (∀ (lib : Lib) (f : Float64) (data : List byte) (e : error),
        (f.UnmarshalJSON lib data).2 = Outcome.err e →
        (f.UnmarshalJSON lib data).1.Set = true ∧ (f.UnmarshalJSON lib data).1.Valid = f.Valid
          ∧ (f.UnmarshalJSON lib data).1.Float64
              = if startsNumber data = true then lib.jsonErrorDest f.Float64 data
                else f.Float64) := by
  constructor
  · intro b data e h
    rcases Byte_UnmarshalJSON_cases b data with h1 | ⟨_, h1⟩ | ⟨_, h1⟩ | ⟨_, h1⟩ <;>
      rw [h1] at h ⊢ <;> first | exact ⟨rfl, rfl, rfl⟩ | cases h
  · intro lib f data e h
    rcases Float64_UnmarshalJSON_cases lib f data with h1 | ⟨_, h1⟩ | ⟨_, h1⟩ | ⟨_, h1⟩ <;>
      rw [h1] at h ⊢ <;> first | exact ⟨rfl, rfl, rfl⟩ | cases h

/-- C8 (example): the token of two characters fails on the present Byte
`ByteFrom(5)`, which stays present with 5; the text `x` fails on the invalid
`NewFloat64(1, false)`, which stays invalid with 1. -/
theorem UnmarshalJSON_error_keeps_Valid_example :
    (((ByteFrom 5).UnmarshalJSON [0x22, 0x61, 0x62, 0x22]).1.Set = true
      ∧ ((ByteFrom 5).UnmarshalJSON [0x22, 0x61, 0x62, 0x22]).1.Valid = true
      ∧ ((ByteFrom 5).UnmarshalJSON [0x22, 0x61, 0x62, 0x22]).1.Byte = 5)
    ∧ (((NewFloat64 float64One false).UnmarshalJSON exampleLib [0x78]).1.Set = true
      ∧ ((NewFloat64 float64One false).UnmarshalJSON exampleLib [0x78]).1.Valid = false
      ∧ ((NewFloat64 float64One false).UnmarshalJSON exampleLib [0x78]).1.Float64 = float64One) :=
  ⟨UnmarshalJSON_error_keeps_Valid.1 (ByteFrom 5) [0x22, 0x61, 0x62, 0x22]
      (error.New "json: cannot convert to byte, text len is greater than one") (by decide),
    UnmarshalJSON_error_keeps_Valid.2 exampleLib (NewFloat64 float64One false) [0x78]
      (error.SyntaxError (some 0x78) "looking for beginning of value") (by decide)⟩

/-- C9 (counterexample): `UnmarshalText` of the two bytes `ab` on the present
Byte `ByteFrom(5)` returns an error and leaves `Valid == true`. -/
theorem Byte_UnmarshalText_error_counterexample :
    ((ByteFrom 5).UnmarshalText [0x61, 0x62]).2
        = Outcome.err (error.New "text: cannot convert to byte, text len is greater than one")
    ∧ ¬ (((ByteFrom 5).UnmarshalText [0x61, 0x62]).1.Set = true
          ∧ ((ByteFrom 5).UnmarshalText [0x61, 0x62]).1.Valid = false) := by
  decide

/-- C9 (amended): on every text on which `UnmarshalText` returns an error,
after the call `Set == true`.  A Float64 is then left with `Valid == false`.  A
Byte, for which the failing texts are those longer than one byte, keeps the
`Valid` and the `Byte` it had before the call, so it is invalid afterwards
exactly when it was invalid before. -/
theorem UnmarshalText_error_flags :
    (∀ (b : Byte) (text : List byte) (e : error), (b.UnmarshalText text).2 = Outcome.err e →
        1 < text.length ∧ (b.UnmarshalText text).1.Set = true
          ∧ (b.UnmarshalText text).1.Valid = b.Valid ∧ (b.UnmarshalText text).1.Byte = b.Byte)
    ∧ (∀ (lib : Lib) (f : Float64) (text : List byte) (e : error),
        (f.UnmarshalText lib text).2 = Outcome.err e →
        (f.UnmarshalText lib text).1.Set = true ∧ (f.UnmarshalText lib text).1.Valid = false) := by
  constructor
  · intro b text e h
    rcases Byte_UnmarshalText_cases b text with ⟨_, h1⟩ | ⟨_, _, h1⟩ | ⟨hl, h1⟩
    · rw [h1] at h
      cases h
    · rw [h1] at h
      cases h
    · rw [h1]
      exact ⟨hl, rfl, rfl, rfl⟩
  · intro lib f text e h
    rcases Float64_UnmarshalText_cases lib f text with ⟨_, h1⟩ | ⟨_, _, h1⟩ | ⟨_, _, _, h1⟩
    · rw [h1] at h
      cases h
    · rw [h1] at h
      cases h
    · rw [h1]
      exact ⟨rfl, rfl⟩

/-- C9 (example): the text `ab` on the invalid Byte `NewByte(5, false)` and the
text `abc` on the present `Float64From(1)`. -/
theorem UnmarshalText_error_flags_example :
    (1 < ([0x61, 0x62] : List byte).length
      ∧ ((NewByte 5 false).UnmarshalText [0x61, 0x62]).1.Set = true
      ∧ ((NewByte 5 false).UnmarshalText [0x61, 0x62]).1.Valid = false
      ∧ ((NewByte 5 false).UnmarshalText [0x61, 0x62]).1.Byte = 5)
    ∧ (((Float64From float64One).UnmarshalText exampleLib [0x61, 0x62, 0x63]).1.Set = true
      ∧ ((Float64From float64One).UnmarshalText exampleLib [0x61, 0x62, 0x63]).1.Valid = false) :=
  ⟨UnmarshalText_error_flags.1 (NewByte 5 false) [0x61, 0x62]
      (error.New "text: cannot convert to byte, text len is greater than one") (by decide),
    UnmarshalText_error_flags.2 exampleLib (Float64From float64One) [0x61, 0x62, 0x63]
      (error.NumError "ParseFloat" [0x61, 0x62, 0x63] "invalid syntax") (by decide)⟩

/-! ## Text decoding of empty input -/

/-- C10 (counterexample): `UnmarshalText` of the zero-length text on the present
Byte `ByteFrom(7)` returns no error and leaves `Set == true` and
`Valid == false`, but the value field still holds 7. -/
theorem Byte_UnmarshalText_empty_counterexample :
    ¬ (((ByteFrom 7).UnmarshalText []).2 = Outcome.nil
        ∧ ((ByteFrom 7).UnmarshalText []).1.Set = true
        ∧ ((ByteFrom 7).UnmarshalText []).1.Valid = false
        ∧ ((ByteFrom 7).UnmarshalText []).1.Byte = 0) := by
  decide

/-- C10 (amended): for every Byte and Float64 in any prior state,
`UnmarshalText` of a zero-length text returns no error and leaves
`Set == true` and `Valid == false`; the value field is not written and holds
what it held before the call. -/
theorem UnmarshalText_empty_keeps_value (lib : Lib) (b : Byte) (f : Float64) :
    b.UnmarshalText [] = ({ Byte := b.Byte, Valid := false, Set := true }, Outcome.nil)
    ∧ f.UnmarshalText lib []
        = ({ Float64 := f.Float64, Valid := false, Set := true }, Outcome.nil) := by
  exact ⟨rfl, rfl⟩

/-! ## A storage scan that returns no error -/

/-- C11 (counterexample): the empty string is a non-nil driver value; `Scan` of
it on the present Byte `ByteFrom(7)` returns no error and leaves the Byte with
`Valid == false` and `Set == false`. -/
theorem Byte_Scan_empty_string_counterexample :
    Value.string [] ≠ Value.nil
    ∧ ((ByteFrom 7).Scan (Value.string [])).2 = Outcome.nil
    ∧ ¬ (((ByteFrom 7).Scan (Value.string [])).1.Valid = true
          ∧ ((ByteFrom 7).Scan (Value.string [])).1.Set = true) := by
  decide

/-- C11 (amended): for every Float64 and every non-nil driver value on which
`Scan` returns no error, the instance afterwards has `Valid == true` and
`Set == true`.  For every Byte, a non-nil driver value on which `Scan` returns
no error is a string; if the string is not empty the Byte afterwards has
`Valid == true`, `Set == true` and holds the first byte of the string, and if
it is empty the Byte is reset to the zero value, `Valid == false` and
`Set == false`. -/
theorem Scan_success_flags :
    (∀ (b : Byte) (value : Value), value ≠ Value.nil → (b.Scan value).2 = Outcome.nil →
        ∃ val, value = Value.string val
          ∧ (val = [] → (b.Scan value).1 = Byte.zero)
          ∧ (∀ c rest, val = c :: rest →
              (b.Scan value).1 = { Byte := c, Valid := true, Set := true }))
    ∧ (∀ (lib : Lib) (f : Float64) (value : Value), value ≠ Value.nil →
        (f.Scan lib value).2 = Outcome.nil →
        (f.Scan lib value).1.Valid = true ∧ (f.Scan lib value).1.Set = true) := by
  constructor
  · intro b value hv h
    cases value with
    | nil => exact absurd rfl hv
    | string val =>
      refine ⟨val, rfl, ?_, ?_⟩
      · intro h0
        subst h0
        rfl
      · intro c rest h0
        subst h0
        simp [Byte.Scan]
    | _ => cases h
  · intro lib f value hv h
    rcases Float64_Scan_cases lib f value with ⟨h0, _⟩ | ⟨_, _, h1⟩ | ⟨_, _, _, h1⟩
    · exact absurd h0 hv
    · rw [h1]
      exact ⟨rfl, rfl⟩
    · rw [h1] at h
      cases h

/-- C11 (example): the string `hello` scanned into the zero Byte leaves it
present with the byte `h`, and the `float64` value 1 scanned into the zero
Float64 leaves it valid and set. -/
theorem Scan_success_flags_example :
    (∃ val, Value.string [0x68, 0x65, 0x6C, 0x6C, 0x6F] = Value.string val
      ∧ (val = [] → (Byte.zero.Scan (Value.string [0x68, 0x65, 0x6C, 0x6C, 0x6F])).1 = Byte.zero)
      ∧ (∀ c rest, val = c :: rest →
          (Byte.zero.Scan (Value.string [0x68, 0x65, 0x6C, 0x6C, 0x6F])).1
            = { Byte := c, Valid := true, Set := true }))
    ∧ ((Float64.zero.Scan exampleLib (Value.float64 float64One)).1.Valid = true
      ∧ (Float64.zero.Scan exampleLib (Value.float64 float64One)).1.Set = true) :=
  ⟨Scan_success_flags.1 Byte.zero (Value.string [0x68, 0x65, 0x6C, 0x6C, 0x6F]) (by decide)
      (by decide),
    Scan_success_flags.2 exampleLib Float64.zero (Value.float64 float64One) (by decide)
      (by decide)⟩

/-! ## The literal null and the zero value -/

/-- C12: for a Byte and a Float64 in every prior state, `UnmarshalJSON` of
exactly the four bytes `null` returns no error and leaves `Set == true`,
`Valid == false` and the value field 0; and the zero value of each type has
`IsSet() == false` and `IsValid() == false`. -/
theorem UnmarshalJSON_null_literal (lib : Lib) (b : Byte) (f : Float64) :
    (b.UnmarshalJSON [0x6E, 0x75, 0x6C, 0x6C]
        = ({ Byte := 0, Valid := false, Set := true }, Outcome.nil)
      ∧ f.UnmarshalJSON lib [0x6E, 0x75, 0x6C, 0x6C]
        = ({ Float64 := 0, Valid := false, Set := true }, Outcome.nil))
    ∧ (Byte.zero.IsSet = false ∧ Byte.zero.IsValid = false
      ∧ Float64.zero.IsSet = false ∧ Float64.zero.IsValid = false) := by
  exact ⟨⟨rfl, rfl⟩, rfl, rfl, rfl, rfl⟩

/-! ## JSON of a value that is not present -/

/-- C13: for every Byte and Float64 that is not present, whatever its three
fields hold, `MarshalJSON` returns exactly the four bytes `n`, `u`, `l`, `l`
with a nil error; so two values that are not present, one unset and one null,
have the same JSON output. -/
theorem MarshalJSON_not_present_is_null (lib : Lib) :
    (∀ b : Byte, b.IsValid = false → b.MarshalJSON = ([0x6E, 0x75, 0x6C, 0x6C], none))
    ∧ (∀ f : Float64, f.IsValid = false →
        f.MarshalJSON lib = ([0x6E, 0x75, 0x6C, 0x6C], none))
    ∧ (∀ b c : Byte, b.IsValid = false → c.IsValid = false → b.MarshalJSON = c.MarshalJSON)
    ∧ (∀ f g : Float64, f.IsValid = false → g.IsValid = false →
        f.MarshalJSON lib = g.MarshalJSON lib) := by
  have hb : ∀ b : Byte, b.IsValid = false → b.MarshalJSON = ([0x6E, 0x75, 0x6C, 0x6C], none) := by
    intro b h
    simp [Byte.MarshalJSON, h, NullBytes]
  have hf : ∀ f : Float64, f.IsValid = false →
      f.MarshalJSON lib = ([0x6E, 0x75, 0x6C, 0x6C], none) := by
    intro f h
    simp [Float64.MarshalJSON, h, NullBytes]
  exact ⟨hb, hf, fun b c h1 h2 => by rw [hb b h1, hb c h2],
    fun f g h1 h2 => by rw [hf f h1, hf g h2]⟩

/-- C13 (example): the unset zero value and the null `NewByte(9, false)`, and
the same for Float64, all marshal to `null`. -/
theorem MarshalJSON_not_present_is_null_example :
    Byte.zero.MarshalJSON = ([0x6E, 0x75, 0x6C, 0x6C], none)
    ∧ (NewFloat64 float64One false).MarshalJSON exampleLib = ([0x6E, 0x75, 0x6C, 0x6C], none)
    ∧ Byte.zero.MarshalJSON = (NewByte 9 false).MarshalJSON
    ∧ Float64.zero.MarshalJSON exampleLib = (NewFloat64 float64One false).MarshalJSON exampleLib :=
  ⟨(MarshalJSON_not_present_is_null exampleLib).1 Byte.zero (by decide),
    (MarshalJSON_not_present_is_null exampleLib).2.1 (NewFloat64 float64One false) (by decide),
    (MarshalJSON_not_present_is_null exampleLib).2.2.1 Byte.zero (NewByte 9 false) (by decide)
      (by decide),
    (MarshalJSON_not_present_is_null exampleLib).2.2.2 Float64.zero (NewFloat64 float64One false)
      (by decide) (by decide)⟩

/-! ## IsZero and IsValid -/

/-- C14 (counterexample): the Byte with `Valid == true` and `Set == false`, as
the struct literal `Byte{Byte: 5, Valid: true}` builds it, is not present, and
`IsZero()` returns false for it. -/
theorem Byte_IsZero_counterexample :
    ¬ ((({ Byte := 5, Valid := true, Set := false } : Byte).IsZero = true)
        ↔ (({ Byte := 5, Valid := true, Set := false } : Byte).IsValid = false)) := by
  decide

/-- C14 (amended): for every Byte and every Float64, `IsZero()` returns true if
and only if the field `Valid` is false; and for every value in which `Valid`
implies `Set`, as in every value built by the constructors and methods,
`IsZero()` returns true if and only if `IsValid()` returns false, that is if
and only if the value is not present. -/
theorem IsZero_iff_not_Valid :
    (∀ b : Byte, (b.IsZero = true ↔ b.Valid = false)
      ∧ ((b.Valid = true → b.Set = true) → (b.IsZero = true ↔ b.IsValid = false)))
    ∧ (∀ f : Float64, (f.IsZero = true ↔ f.Valid = false)
      ∧ ((f.Valid = true → f.Set = true) → (f.IsZero = true ↔ f.IsValid = false))) := by
  constructor
  · rintro ⟨v, valid, set⟩
    cases valid <;> cases set <;> simp [Byte.IsZero, Byte.IsValid]
  · rintro ⟨v, valid, set⟩
    cases valid <;> cases set <;> simp [Float64.IsZero, Float64.IsValid]

/-- C14 (example): the present `ByteFrom(5)` is not zero, and the null
`NewFloat64(1, false)` is. -/
theorem IsZero_iff_not_Valid_example :
    ((ByteFrom 5).IsZero = true ↔ (ByteFrom 5).IsValid = false)
    ∧ ((NewFloat64 float64One false).IsZero = true
        ↔ (NewFloat64 float64One false).IsValid = false) :=
  ⟨(IsZero_iff_not_Valid.1 (ByteFrom 5)).2 (fun _ => rfl),
    (IsZero_iff_not_Valid.2 (NewFloat64 float64One false)).2 (fun _ => rfl)⟩

/-! ## SetValue -/

/-- C15: for every Byte and Float64 in any prior state and every value `x`,
after `SetValue(x)` the instance has `IsSet() == true`, `IsValid() == true` and
its value field equal to `x`. -/
theorem SetValue_makes_present (b : Byte) (x : byte) (f : Float64) (y : float64) :
    ((b.SetValue x).IsSet = true ∧ (b.SetValue x).IsValid = true ∧ (b.SetValue x).Byte = x)
    ∧ ((f.SetValue y).IsSet = true ∧ (f.SetValue y).IsValid = true
      ∧ (f.SetValue y).Float64 = y) := by
  exact ⟨⟨rfl, rfl, rfl⟩, rfl, rfl, rfl⟩

/-! ## Text of a single byte -/

/-- C16: for every byte `v` and every prior state of the target,
`ByteFrom(v).MarshalText()` writes the one-byte sequence `[v]` with a nil
error, and `UnmarshalText` of that output on the target returns no error and
leaves it present with `Byte == v`, `Valid == true` and `Set == true`. -/
theorem Byte_text_round_trip (target : Byte) (v : byte) :
    (ByteFrom v).MarshalText = ([v], none)
    ∧ target.UnmarshalText (ByteFrom v).MarshalText.1
        = ({ Byte := v, Valid := true, Set := true }, Outcome.nil) := by
  exact ⟨rfl, rfl⟩

/-- C17: for every Byte and Float64 that is not present, unset or null,
`MarshalText` returns a zero-length byte sequence with a nil error, which is
not the text `null`. -/
theorem MarshalText_not_present_is_empty (lib : Lib) :
    (∀ b : Byte, b.IsValid = false →
        b.MarshalText = ([], none) ∧ b.MarshalText.1.length = 0 ∧ b.MarshalText.1 ≠ NullBytes)
    ∧ (∀ f : Float64, f.IsValid = false →
        f.MarshalText lib = ([], none) ∧ (f.MarshalText lib).1.length = 0
          ∧ (f.MarshalText lib).1 ≠ NullBytes) := by
  constructor
  · intro b h
    have hb : b.MarshalText = ([], none) := by simp [Byte.MarshalText, h]
    rw [hb]
    exact ⟨rfl, rfl, by decide⟩
  · intro f h
    have hf : f.MarshalText lib = ([], none) := by simp [Float64.MarshalText, h]
    rw [hf]
    exact ⟨rfl, rfl, by decide⟩

/-- C17 (example): the unset zero Byte and the null `NewFloat64(1, false)`. -/
theorem MarshalText_not_present_is_empty_example :
    (Byte.zero.MarshalText = ([], none) ∧ Byte.zero.MarshalText.1.length = 0
      ∧ Byte.zero.MarshalText.1 ≠ NullBytes)
    ∧ ((NewFloat64 float64One false).MarshalText exampleLib = ([], none)
      ∧ ((NewFloat64 float64One false).MarshalText exampleLib).1.length = 0
      ∧ ((NewFloat64 float64One false).MarshalText exampleLib).1 ≠ NullBytes) :=
  ⟨(MarshalText_not_present_is_empty exampleLib).1 Byte.zero (by decide),
    (MarshalText_not_present_is_empty exampleLib).2 (NewFloat64 float64One false) (by decide)⟩

/-! ## JSON string tokens of one printable character -/

set_option maxRecDepth 100000

/-- The JSON decoder turns a token of a quote, one printable ASCII byte that is
neither the quote nor the backslash, and a quote into the string of that byte. -/
theorem jsonUnmarshalString_printable :
    ∀ c : byte, 0x20 ≤ c → c ≤ 0x7E → c ≠ 0x22 → c ≠ 0x5C →
      jsonUnmarshalString [0x22, c, 0x22] = ([c], Outcome.nil) := by
  decide

/-- C18: for every Byte state and every JSON string token made of a quote, a
single printable ASCII byte `c` (0x20 to 0x7E) other than the double quote and
the backslash, and a closing quote, `UnmarshalJSON` returns no error and leaves
the Byte present with `Byte == c`, `Valid == true` and `Set == true`. -/
theorem Byte_UnmarshalJSON_printable (b : Byte) (c : byte) (hlo : 0x20 ≤ c) (hhi : c ≤ 0x7E)
    (hq : c ≠ 0x22) (hb : c ≠ 0x5C) :
    b.UnmarshalJSON [0x22, c, 0x22] = ({ Byte := c, Valid := true, Set := true }, Outcome.nil) := by
  have h := jsonUnmarshalString_printable c hlo hhi hq hb
  have hn : ¬ (([0x22, c, 0x22] : List byte).length = 0
      ∨ ([0x22, c, 0x22] : List byte) = NullBytes) := by
    simp [NullBytes]
  simp only [Byte.UnmarshalJSON, if_neg hn, h]
  rfl

/-- C18 (example): the token of the letter `a` on the null Byte
`NewByte(0, false)`. -/
theorem Byte_UnmarshalJSON_printable_example :
    (NewByte 0 false).UnmarshalJSON [0x22, 0x61, 0x22]
      = ({ Byte := 0x61, Valid := true, Set := true }, Outcome.nil) :=
  Byte_UnmarshalJSON_printable (NewByte 0 false) 0x61 (by decide) (by decide) (by decide)
    (by decide)

/-! ## Pointers -/

/-- C19: `Ptr` after `ByteFromPtr` gives back the optional it was built from,
absent exactly when that was absent and otherwise pointing to the same byte;
and for every Byte `b`, `ByteFromPtr(b.Ptr())` has `Set == true`,
`Valid == b.IsValid()`, and `Byte == b.Byte` when `b` is present and 0
otherwise.  The same holds for `Float64FromPtr` and `Float64.Ptr`. -/
theorem Ptr_FromPtr_inverse :
    (∀ o : Option byte, (ByteFromPtr o).Ptr = o
        ∧ ((ByteFromPtr o).Ptr = none ↔ o = none))
    ∧ (∀ b : Byte, (ByteFromPtr b.Ptr).Set = true ∧ (ByteFromPtr b.Ptr).Valid = b.IsValid
        ∧ (ByteFromPtr b.Ptr).Byte = if b.IsValid = true then b.Byte else 0)
    ∧ (∀ o : Option float64, (Float64FromPtr o).Ptr = o
        ∧ ((Float64FromPtr o).Ptr = none ↔ o = none))
    ∧ (∀ f : Float64, (Float64FromPtr f.Ptr).Set = true
        ∧ (Float64FromPtr f.Ptr).Valid = f.IsValid
        ∧ (Float64FromPtr f.Ptr).Float64 = if f.IsValid = true then f.Float64 else 0) := by
  refine ⟨?_, ?_, ?_, ?_⟩
  · intro o
    cases o <;> exact ⟨rfl, by simp [ByteFromPtr, NewByte, Byte.Ptr, Byte.IsValid]⟩
  · rintro ⟨v, valid, set⟩
    cases valid <;> cases set <;> exact ⟨rfl, rfl, rfl⟩
  · intro o
    cases o <;> exact ⟨rfl, by simp [Float64FromPtr, NewFloat64, Float64.Ptr, Float64.IsValid]⟩
  · rintro ⟨v, valid, set⟩
    cases valid <;> cases set <;> exact ⟨rfl, rfl, rfl⟩

end null
